import Mathlib

/-!
Verification development for the PIRVS SDK sample repository.

The repository ships the public SLAM interface (`include/pirvs.h`) and the
sample driver programs (`apps/*.cpp`, `online_slam`, `online_tracking`,
`online_viewer`); the implementation of the SLAM core behind the interface is
a prebuilt binary that is not part of the source tree.  The development below
therefore embeds two kinds of artifacts:

* the driver programs' control flow, translated directly from the sources in
  `apps/` (`offlineRun`, `onlineRun`);
* the SLAM core, modelled from the specification's description of the
  interface contracts (feature pipeline, pose-tracker state machine, mapping
  orchestrator, map persistence).  Every such definition carries a doc
  comment starting with `Modelled from the spec:`.

Numbers are embedded as rationals (`ℚ`); C++ output pointers are embedded as
a `Bool` validity flag (the pointer is non-NULL) together with an `Option`
result; fallible operations return `Option`/`Bool` results.
-/

namespace PIRVS

/-- Vector of three rational coordinates, embedding `cv::Vec3d`/`cv::Point3d`. -/
structure Vec3 where
  x : ℚ
  y : ℚ
  z : ℚ
deriving DecidableEq, Repr

/-- Squared Euclidean distance between two vectors. -/
def Vec3.distSq (a b : Vec3) : ℚ :=
  (a.x - b.x) ^ 2 + (a.y - b.y) ^ 2 + (a.z - b.z) ^ 2

/-- Modelled from the spec: a rigid transform ("rig pose"), embedding
`cv::Affine3d` as a translation vector together with a rotation parameter
vector (axis-angle abstraction); the claims only compare poses, never compose
them. -/
structure Pose where
  t : Vec3
  r : Vec3
deriving DecidableEq, Repr

/-- Modelled from the spec: the Calibration Model (§2 item 1) plus the fixed
configuration parameters the spec mentions: epipolar tolerance, the
best/second-best margin of the match tie-break (§4.1), the minimum keypoint
count (§4.1), near/far depth bounds (§3 StereoCorrespondence invariant), and
the keyframe-insertion thresholds (§4.4).  `valid` records whether the
calibration document was parsed successfully. -/
structure Calib where
  valid : Bool
  fx : ℚ
  fy : ℚ
  cx : ℚ
  cy : ℚ
  baseline : ℚ
  detThresh : ℚ
  minKeypoints : Nat
  epipolarTol : ℚ
  ratioNum : ℚ
  ratioDen : ℚ
  near : ℚ
  far : ℚ
  kfTransThreshSq : ℚ
  kfRotThreshSq : ℚ
  overlapRadiusSq : ℚ
deriving DecidableEq, Repr

/-- A pixel of an image: location and intensity. -/
structure Pixel where
  px : ℚ
  py : ℚ
  v : ℚ
deriving DecidableEq, Repr

/-- Keypoint2D (spec §3): pixel coordinate plus a descriptor value. -/
structure Keypoint where
  x : ℚ
  y : ℚ
  desc : ℚ
deriving DecidableEq, Repr

/-- Modelled from the spec: the keypoint detector of the Feature Pipeline
(§4.1), "corner/descriptor detector, deterministic given identical pixel
input and fixed parameters" — embedded as a thresholded response over the
pixels, which is deterministic by construction. -/
def detect (calib : Calib) (img : List Pixel) : List Keypoint :=
  (img.filter (fun p => decide (calib.detThresh < p.v))).map
    (fun p => { x := p.px, y := p.py, desc := p.v })

/-- StereoFeature (pirvs.h lines 101-111): 2d locations in the left and right
images plus the triangulated 3d point in the left camera's coordinate. -/
structure StereoFeature where
  pt_l : ℚ × ℚ
  pt_r : ℚ × ℚ
  pt_3d : Vec3
deriving DecidableEq, Repr

/-- Disparity of a stored stereo correspondence (left x minus right x). -/
def disparity (f : StereoFeature) : ℚ := f.pt_l.1 - f.pt_r.1

/-- Triangulated depth of a stored stereo correspondence. -/
def depth (f : StereoFeature) : ℚ := f.pt_3d.z

/-- Modelled from the spec: triangulation of an accepted match "using
calibrated stereo geometry into rig-frame 3D points" (§4.1) with the §3
invariant "disparity > 0 and triangulated depth within a configured valid
range (near/far bounds); correspondences violating this are discarded":
rectified-stereo depth `z = fx * baseline / disparity`, kept only when the
disparity is positive and `z` lies within `[near, far]`. -/
def triangulate (calib : Calib) (kl kr : Keypoint) : Option StereoFeature :=
  let d := kl.x - kr.x
  if 0 < d then
    let z := calib.fx * calib.baseline / d
    if calib.near ≤ z ∧ z ≤ calib.far then
      some { pt_l := (kl.x, kl.y), pt_r := (kr.x, kr.y),
             pt_3d := { x := z * (kl.x - calib.cx) / calib.fx,
                        y := z * (kl.y - calib.cy) / calib.fy,
                        z := z } }
    else none
  else none

/-- Descriptor distance between two keypoints. -/
def matchDist (a b : Keypoint) : ℚ := |a.desc - b.desc|

/-- Best and second-best descriptor distances of a left keypoint over a
candidate list: the accumulator carries the current best match with its
distance and, when present, the second-best distance. -/
def bestTwo (kl : Keypoint) (cands : List Keypoint) :
    Option (Keypoint × ℚ) × Option ℚ :=
  cands.foldl
    (fun acc kr =>
      let dn := matchDist kl kr
      match acc with
      | (none, _) => (some (kr, dn), none)
      | (some (kb, db), s) =>
        if dn < db then (some (kr, dn), some db)
        else
          match s with
          | none => (some (kb, db), some dn)
          | some ds => (some (kb, db), some (min ds dn)))
    (none, none)

/-- Modelled from the spec: matching of one left keypoint (§4.1) — candidates
are the right keypoints "near the epipolar line implied by calibration",
the best candidate by descriptor distance wins, and the pair is rejected
"whose best and second-best match distances are closer than a threshold
ratio" (accept only when `best * ratioDen ≤ second * ratioNum`). -/
def matchOne (calib : Calib) (rights : List Keypoint) (kl : Keypoint) :
    Option (Keypoint × Keypoint) :=
  let cands := rights.filter (fun kr => decide (|kl.y - kr.y| ≤ calib.epipolarTol))
  match bestTwo kl cands with
  | (none, _) => none
  | (some (kb, _), none) => some (kl, kb)
  | (some (kb, db), some ds) =>
    if db * calib.ratioDen ≤ ds * calib.ratioNum then some (kl, kb) else none

/-- Modelled from the spec: left-to-right stereo matching over all detected
left keypoints (§4.1). -/
def matchStereo (calib : Calib) (kls krs : List Keypoint) :
    List (Keypoint × Keypoint) :=
  kls.filterMap (matchOne calib krs)

/-- Keyframe (spec §3): unique id, rig pose at capture time, and "the
StereoCorrespondence set detected at that time". -/
structure Keyframe where
  id : Nat
  pose : Pose
  feat : List StereoFeature
deriving DecidableEq, Repr

/-- Landmark (spec §3): unique id, 3d position in map frame, and the set of
keyframe observations (embedded as the ids of the observing keyframes). -/
structure Landmark where
  id : Nat
  pos : Vec3
  obs : List Nat
deriving DecidableEq, Repr

/-- Map (pirvs.h lines 246-258, spec §3/§4.3): owns the keyframes (most
recent first) and landmarks; `nextId` generates fresh ids. -/
structure Map where
  keyframes : List Keyframe
  landmarks : List Landmark
  nextId : Nat
deriving DecidableEq, Repr

/-- Map Store invariant (spec §4.3): "every Landmark's observation set
references only existing Keyframes". -/
def MapConsistent (m : Map) : Prop :=
  ∀ l ∈ m.landmarks, ∀ k ∈ l.obs, ∃ kf ∈ m.keyframes, kf.id = k

instance (m : Map) : Decidable (MapConsistent m) := by
  unfold MapConsistent
  infer_instance

/-- Map.GetPoints (pirvs.h lines 251-257): writes the sparse 3d points through
the output pointer; "False if `points` is NULL".  The pointer is embedded as
the validity flag `outValid`. -/
def Map.GetPoints (m : Map) (outValid : Bool) : Bool × Option (List Vec3) :=
  if outValid then (true, some (m.landmarks.map Landmark.pos)) else (false, none)

/-- FeatureState (pirvs.h lines 125-155, spec §3): the 2d keypoint sets and,
when 3d was requested, the stereo correspondence set of the most recently
processed stereo sample.  The availability flags model whether RunFeature has
populated the state (pirvs.h: features "are available from the FeatureState
after it is updated via RunFeature()"). -/
structure FeatureState where
  has2d : Bool
  features_l : List Keypoint
  features_r : List Keypoint
  has3d : Bool
  stereo : List StereoFeature
deriving DecidableEq, Repr

/-- The initial FeatureState, with nothing available. -/
def emptyFeatureState : FeatureState :=
  { has2d := false, features_l := [], features_r := [], has3d := false, stereo := [] }

/-- FeatureState.Get2dFeatures (pirvs.h lines 130-143): "True if the features
are available. False if the features are not available or the pointer is
NULL."  The two output pointers are embedded as validity flags. -/
def FeatureState.Get2dFeatures (s : FeatureState) (outLValid outRValid : Bool) :
    Bool × Option (List Keypoint × List Keypoint) :=
  if outLValid && outRValid && s.has2d then (true, some (s.features_l, s.features_r))
  else (false, none)

/-- FeatureState.GetStereoFeatures (pirvs.h lines 145-154): "True if the
features are available. False if the features are not available or the
pointer is NULL." -/
def FeatureState.GetStereoFeatures (s : FeatureState) (outValid : Bool) :
    Bool × Option (List StereoFeature) :=
  if outValid && s.has3d then (true, some s.stereo) else (false, none)

/-- StereoData (pirvs.h lines 63-68): the images captured by the left and
right sensors.  An image is embedded as its pixel list; a missing image
(empty `cv::Mat`) is embedded as `none` — the spec (§3) says "missing either
image invalidates the sample". -/
structure StereoData where
  timestamp : Nat
  img_l : Option (List Pixel)
  img_r : Option (List Pixel)
deriving DecidableEq, Repr

/-- Modelled from the spec: `ExtractAndMatch(stereo_sample, calibration,
with_3d) -> FeatureState` (§4.1).  Detects keypoints independently in the two
images; "fails (empty result, not an exception) when: image pair absent,
fewer than a minimum-keypoint count detected, or calibration invalid"; when
`with_3d` is false only the 2d keypoint sets are produced, otherwise matching
and triangulation also populate the stereo correspondence set. -/
def ExtractAndMatch (calib : Calib) (sd : StereoData) (with_3d : Bool) :
    FeatureState :=
  match sd.img_l, sd.img_r with
  | some il, some ir =>
    if calib.valid then
      let kl := detect calib il
      let kr := detect calib ir
      if kl.length < calib.minKeypoints ∨ kr.length < calib.minKeypoints then
        emptyFeatureState
      else if with_3d then
        { has2d := true, features_l := kl, features_r := kr, has3d := true,
          stereo := (matchStereo calib kl kr).filterMap
            (fun pr => triangulate calib pr.1 pr.2) }
      else
        { has2d := true, features_l := kl, features_r := kr, has3d := false,
          stereo := [] }
    else emptyFeatureState
  | _, _ => emptyFeatureState

/-- RunFeature (pirvs.h lines 173-193, spec §4.1): processes a StereoData and
produces the updated FeatureState.  The shared pointer to the StereoData is
embedded as an `Option`; the ambient Map is threaded through to express the
spec's "side effects: none beyond producing the returned state; does not
touch the Map". -/
def RunFeature (stereo_data : Option StereoData) (calib : Calib)
    (with_3d : Bool) (map : Map) : FeatureState × Map :=
  match stereo_data with
  | none => (emptyFeatureState, map)
  | some sd => (ExtractAndMatch calib sd with_3d, map)

/-- Tracking status of the Pose Tracker state machine (spec §4.2). -/
inductive TrackingStatus where
  | UNINITIALIZED
  | BOOTSTRAPPING
  | TRACKING
  | LOST
deriving DecidableEq, Repr

/-- Modelled from the spec: the information the Pose Tracker extracts from one
stereo sample (§4.2): `measuredPose` is the robust pose estimate against the
map or, while LOST, the relocalization result — `none` when the
accepted-inlier count is below the minimum; `parallaxOk` records whether the
minimum baseline/parallax needed to finish bootstrapping has been observed;
`feat` is the candidate stereo correspondence set of the frame (§4.4
"triangulates new Landmarks from the FeatureState"). -/
structure StereoFrame where
  measuredPose : Option Pose
  parallaxOk : Bool
  feat : List StereoFeature
deriving DecidableEq, Repr

/-- Data (pirvs.h lines 42-68): the tagged sensor-sample variant of spec §3 —
an IMU sample or a stereo sample, each with a timestamp. -/
inductive Data where
  | imu (timestamp : Nat) (accel ang_v : Vec3)
  | stereo (timestamp : Nat) (frame : StereoFrame)
deriving DecidableEq, Repr

/-- SlamState (pirvs.h lines 306-330, spec §3 PoseState): tracking status and
the committed rig pose; the calibration handed to `InitState` is kept inside
the state. -/
structure SlamState where
  calib : Calib
  status : TrackingStatus
  pose : Pose
deriving DecidableEq, Repr

/-- SlamState.GetPose (pirvs.h lines 311-329).  Modelled from the spec:
"`GetPose` exposes the committed pose iff status is `TRACKING`; returns
unavailable otherwise" (§4.2); the output pointer is embedded as the validity
flag `poseOutValid`, and a NULL output pointer yields false like the other
query accessors of the interface. -/
def SlamState.GetPose (s : SlamState) (poseOutValid : Bool) :
    Bool × Option Pose :=
  if poseOutValid && (s.status == TrackingStatus.TRACKING) then (true, some s.pose)
  else (false, none)

/-- Modelled from the spec: one Pose Tracker update (§4.2 state machine).
IMU samples update only bookkeeping, never status or committed pose; the
first stereo sample moves UNINITIALIZED to BOOTSTRAPPING; BOOTSTRAPPING
finishes once minimum parallax is observed and a pose can be seeded;
TRACKING commits the measured pose or transitions to LOST when the robust
estimate fails; LOST relocalizes via place recognition and resumes TRACKING
on success. -/
def trackerStep (d : Data) (s : SlamState) : SlamState :=
  match d with
  | Data.imu _ _ _ => s
  | Data.stereo _ f =>
    match s.status with
    | TrackingStatus.UNINITIALIZED => { s with status := TrackingStatus.BOOTSTRAPPING }
    | TrackingStatus.BOOTSTRAPPING =>
      if f.parallaxOk then
        match f.measuredPose with
        | some p => { s with status := TrackingStatus.TRACKING, pose := p }
        | none => s
      else s
    | TrackingStatus.TRACKING =>
      match f.measuredPose with
      | some p => { s with pose := p }
      | none => { s with status := TrackingStatus.LOST }
    | TrackingStatus.LOST =>
      match f.measuredPose with
      | some p => { s with status := TrackingStatus.TRACKING, pose := p }
      | none => s

/-- Modelled from the spec: the §3 StereoCorrespondence invariant as a check
on a stored correspondence — "disparity > 0 and triangulated depth within a
configured valid range (near/far bounds)". -/
def validCorr (calib : Calib) (f : StereoFeature) : Bool :=
  decide (0 < disparity f) && decide (calib.near ≤ depth f) && decide (depth f ≤ calib.far)

/-- Modelled from the spec: "low covisibility overlap with existing
keyframes" (§4.4) — the current pose is farther than the overlap radius from
every existing keyframe. -/
def lowOverlap (calib : Calib) (p : Pose) (m : Map) : Bool :=
  m.keyframes.all (fun kf => decide (calib.overlapRadiusSq < Vec3.distSq p.t kf.pose.t))

/-- Modelled from the spec: the keyframe-insertion policy (§4.4) —
"translation/rotation exceeding thresholds since the last keyframe, or low
covisibility overlap with existing keyframes"; an empty map always needs its
seed keyframe (§4.2 "seeds an initial Map"). -/
def needKeyframe (calib : Calib) (p : Pose) (m : Map) : Bool :=
  match m.keyframes.head? with
  | none => true
  | some kf =>
    decide (calib.kfTransThreshSq < Vec3.distSq p.t kf.pose.t)
    || decide (calib.kfRotThreshSq < Vec3.distSq p.r kf.pose.r)
    || lowOverlap calib p m

/-- Modelled from the spec: keyframe insertion (§4.4) — a new Keyframe at the
committed pose carrying the frame's correspondence set (candidates violating
the §3 invariant discarded, never stored), plus new Landmarks triangulated
from those correspondences, each observing the new keyframe. -/
def insertKeyframe (calib : Calib) (p : Pose) (f : StereoFrame) (m : Map) : Map :=
  let kept := f.feat.filter (validCorr calib)
  let kfId := m.nextId
  { keyframes := { id := kfId, pose := p, feat := kept } :: m.keyframes,
    landmarks :=
      (((List.range kept.length).zip kept).map
        (fun ik => { id := kfId + 1 + ik.1, pos := ik.2.pt_3d, obs := [kfId] })) ++
      m.landmarks,
    nextId := kfId + 1 + kept.length }

/-- Modelled from the spec: one SLAM iteration (§4.2 + §4.4) — the Pose
Tracker updates the state, and, "after a successful `TRACKING` update on a
stereo sample", the Mapping Orchestrator evaluates the keyframe-insertion
policy and possibly inserts a Keyframe with its Landmarks; in every other
case the Map is left untouched. -/
def slamStep (d : Data) (m : Map) (s : SlamState) : Map × SlamState :=
  let s2 := trackerStep d s
  match d with
  | Data.imu _ _ _ => (m, s2)
  | Data.stereo _ f =>
    if s2.status == TrackingStatus.TRACKING && needKeyframe s2.calib s2.pose m then
      (insertKeyframe s2.calib s2.pose f m, s2)
    else (m, s2)

/-- RunSlam (pirvs.h lines 347-369).  Modelled from the spec: "True if the
Map and SlamState are successfully update and the device is still on track.
False if any of the shared_ptr is nullptr, or if the SLAM algorithm failed to
keep the device on track" — failing to keep the device on track is the
tracker being LOST after the update (§4.2; a bootstrap attempt that has not
yet succeeded is "a reported — not fatal — failure").  The shared pointers
are embedded as `Option`s; a null pointer leaves everything unchanged. -/
def RunSlam (data : Option Data) (map : Option Map) (state : Option SlamState) :
    Bool × Option Map × Option SlamState :=
  match data, map, state with
  | some d, some m, some s =>
    let r := slamStep d m s
    (r.2.status != TrackingStatus.LOST, some r.1, some r.2)
  | _, _, _ => (false, map, state)

/-- SaveMap (pirvs.h lines 288-299): "True if the Map is saved to disk. False
otherwise.  Common reasons for returning false includes, 1) `map` is nullptr;
2) `file_map` is empty." -/
def SaveMap (file_map : String) (map : Option Map) : Bool :=
  decide (file_map ≠ "") && map.isSome

/-- Iterated RunSlam core over a list of samples (the drivers' processing
loop restricted to the SLAM update). -/
def runSlamSeq : List Data → Map → SlamState → Map × SlamState
  | [], m, s => (m, s)
  | d :: ds, m, s =>
    let r := slamStep d m s
    runSlamSeq ds r.1 r.2

/-- A sample of a static rig whose pose is `p`: an IMU sample, or a stereo
sample whose robust pose estimate is exactly `p` again. -/
def staticSample (p : Pose) : Data → Prop
  | Data.imu _ _ _ => True
  | Data.stereo _ f => f.measuredPose = some p

/-- The correspondence-validity invariant over every stereo correspondence
stored in a Map's keyframes. -/
def MapFeatInvariant (calib : Calib) (m : Map) : Prop :=
  ∀ kf ∈ m.keyframes, ∀ f ∈ kf.feat, validCorr calib f = true

/-- Serialized form of a Keyframe in the map document (spec §4.5: "all
Keyframes (pose, id, correspondence summary)"), with the pose flattened to
rational components. -/
structure KeyframeRec where
  id : Nat
  tx : ℚ
  ty : ℚ
  tz : ℚ
  rx : ℚ
  ry : ℚ
  rz : ℚ
  feat : List StereoFeature
deriving DecidableEq, Repr

/-- Serialized form of a Landmark in the map document (spec §4.5: "Landmarks
(id, position, observation list)"). -/
structure LandmarkRec where
  id : Nat
  px : ℚ
  py : ℚ
  pz : ℚ
  obs : List Nat
deriving DecidableEq, Repr

/-- Modelled from the spec: the "durable structured document" produced by Map
persistence (§4.5). -/
structure MapDoc where
  keyframeRecs : List KeyframeRec
  landmarkRecs : List LandmarkRec
  nextId : Nat
deriving DecidableEq, Repr

/-- Serialization of one Keyframe. -/
def encodeKeyframe (kf : Keyframe) : KeyframeRec :=
  { id := kf.id, tx := kf.pose.t.x, ty := kf.pose.t.y, tz := kf.pose.t.z,
    rx := kf.pose.r.x, ry := kf.pose.r.y, rz := kf.pose.r.z, feat := kf.feat }

/-- Deserialization of one Keyframe. -/
def decodeKeyframe (r : KeyframeRec) : Keyframe :=
  { id := r.id,
    pose := { t := { x := r.tx, y := r.ty, z := r.tz },
              r := { x := r.rx, y := r.ry, z := r.rz } },
    feat := r.feat }

/-- Serialization of one Landmark. -/
def encodeLandmark (l : Landmark) : LandmarkRec :=
  { id := l.id, px := l.pos.x, py := l.pos.y, pz := l.pos.z, obs := l.obs }

/-- Deserialization of one Landmark. -/
def decodeLandmark (r : LandmarkRec) : Landmark :=
  { id := r.id, pos := { x := r.px, y := r.py, z := r.pz }, obs := r.obs }

/-- Modelled from the spec: `Save` (§4.5) — serializes all Keyframes and
Landmarks to the structured document. -/
def SaveMapDoc (m : Map) : MapDoc :=
  { keyframeRecs := m.keyframes.map encodeKeyframe,
    landmarkRecs := m.landmarks.map encodeLandmark,
    nextId := m.nextId }

/-- Modelled from the spec: the referential-integrity validation of `Load`
(§4.5) — "every Landmark observation references a present Keyframe". -/
def docIntegrity (doc : MapDoc) : Bool :=
  doc.landmarkRecs.all
    (fun l => l.obs.all (fun k => doc.keyframeRecs.any (fun kf => kf.id == k)))

/-- LoadMap (pirvs.h lines 273-286).  Modelled from the spec: `Load` (§4.5)
deserializes the document and "validates referential integrity (every
Landmark observation references a present Keyframe) — corrupted or
incomplete documents fail the load rather than producing a partially usable
Map".  A document that could not be parsed at all is embedded as `none`;
`none` as the result embeds returning false with no Map produced. -/
def LoadMap (doc : Option MapDoc) (calib : Calib) : Option Map :=
  match doc with
  | none => none
  | some d =>
    if calib.valid && docIntegrity d then
      some { keyframes := d.keyframeRecs.map decodeKeyframe,
             landmarks := d.landmarkRecs.map decodeLandmark,
             nextId := d.nextId }
    else none

/-- A dangling observation reference in a map document: some landmark record
observes a keyframe id present in no keyframe record. -/
def hasDanglingObs (doc : MapDoc) : Prop :=
  ∃ l ∈ doc.landmarkRecs, ∃ k ∈ l.obs, ∀ kf ∈ doc.keyframeRecs, kf.id ≠ k

/-- One loop iteration of the offline_slam driver (apps/offline_slam.cpp
lines 79-118), as the driver observes it: the DataLoader fails (end of
sequence or load error), or a Data is loaded and processed — recording
whether RunSlam succeeded, whether the Data was a StereoData, and whether the
user pressed ESC at the visualization step. -/
inductive OfflineStep where
  | loadFail
  | frame (slamOk : Bool) (isStereo : Bool) (esc : Bool)
deriving DecidableEq, Repr

/-- Leaving the driver loop towards SaveMap (offline_slam.cpp lines 120-126,
online_slam lines 166-172): SaveMap is invoked; the process exits 0 when it
succeeds and -1 when it fails.  `saveOk` abstracts SaveMap's result.  The
returned pair is (exit code, SaveMap was invoked). -/
def saveAndExit (saveOk : Bool) : Int × Bool :=
  (if saveOk then 0 else -1, true)

/-- Control flow of the offline_slam driver main loop (offline_slam.cpp lines
79-126): LoadData failure breaks to SaveMap; RunSlam failure prints and
returns -1 without saving; ESC on a stereo frame breaks to SaveMap; the end
of the step list is the sequence running out, i.e. LoadData failing. -/
def offlineRun (saveOk : Bool) : List OfflineStep → Int × Bool
  | [] => saveAndExit saveOk
  | OfflineStep.loadFail :: _ => saveAndExit saveOk
  | OfflineStep.frame ok st esc :: rest =>
    if ok then
      if st && esc then saveAndExit saveOk else offlineRun saveOk rest
    else (-1, false)

/-- Whether the offline driver loop reaches a RunSlam call that fails. -/
def offlineHitsSlamFail : List OfflineStep → Bool
  | [] => false
  | OfflineStep.loadFail :: _ => false
  | OfflineStep.frame ok st esc :: rest =>
    if ok then
      if st && esc then false else offlineHitsSlamFail rest
    else true

/-- One loop iteration of the online_slam driver (src/unnamed/part_001 lines
115-164): GetData may fail (continue), or a Data arrives — recording whether
it is a StereoData, whether RunSlam succeeded, and whether ESC was pressed. -/
inductive OnlineStep where
  | noData
  | sample (isStereo : Bool) (slamOk : Bool) (esc : Bool)
deriving DecidableEq, Repr

/-- Control flow of the online_slam driver main loop (src/unnamed/part_001
lines 112-172): the `stereo_data_available` latch skips RunSlam until the
first stereo frame; RunSlam failure breaks out of the loop — and SaveMap is
still invoked after it ("save the map even if SLAM failed"); ESC on a stereo
frame breaks to SaveMap.  The end of the step list truncates the unending
device stream: no break was taken, so SaveMap was not yet invoked. -/
def onlineRun (saveOk : Bool) : Bool → List OnlineStep → Int × Bool
  | _, [] => (0, false)
  | latch, OnlineStep.noData :: rest => onlineRun saveOk latch rest
  | latch, OnlineStep.sample st ok esc :: rest =>
    let latch2 := latch || st
    if latch2 then
      if ok then
        if st && esc then saveAndExit saveOk else onlineRun saveOk latch2 rest
      else saveAndExit saveOk
    else onlineRun saveOk latch2 rest

/-- Whether the online driver loop reaches a RunSlam call that fails. -/
def onlineHitsSlamFail : Bool → List OnlineStep → Bool
  | _, [] => false
  | latch, OnlineStep.noData :: rest => onlineHitsSlamFail latch rest
  | latch, OnlineStep.sample st ok esc :: rest =>
    let latch2 := latch || st
    if latch2 then
      if ok then
        if st && esc then false else onlineHitsSlamFail latch2 rest
      else true
    else onlineHitsSlamFail latch2 rest

/-- A concrete valid calibration used to instantiate theorems on closed
inputs. -/
def sampleCalib : Calib :=
  { valid := true, fx := 1, fy := 1, cx := 0, cy := 0, baseline := 1,
    detThresh := 0, minKeypoints := 0, epipolarTol := 1, ratioNum := 7,
    ratioDen := 10, near := 0, far := 10, kfTransThreshSq := 1,
    kfRotThreshSq := 1, overlapRadiusSq := 1 }

/-- The origin pose. -/
def samplePose : Pose :=
  { t := { x := 0, y := 0, z := 0 }, r := { x := 0, y := 0, z := 0 } }

/-- A concrete SlamState that is on track at the origin. -/
def sampleTrackingState : SlamState :=
  { calib := sampleCalib, status := TrackingStatus.TRACKING, pose := samplePose }

/-- A concrete map holding one keyframe at the origin and one landmark
observed by it. -/
def sampleMap : Map :=
  { keyframes := [{ id := 0, pose := samplePose, feat := [] }],
    landmarks := [{ id := 1, pos := { x := 0, y := 0, z := 1 }, obs := [0] }],
    nextId := 2 }

/-- A stereo sample of a static rig at the origin whose robust pose estimate
succeeds. -/
def sampleStaticData : Data :=
  Data.stereo 0 { measuredPose := some samplePose, parallaxOk := true, feat := [] }

/-- A stereo sample on which the robust pose estimate fails (too few
inliers). -/
def sampleLostData : Data :=
  Data.stereo 0 { measuredPose := none, parallaxOk := true, feat := [] }

/-- C1: For every SlamState, GetPose (called with a non-NULL output pointer)
returns true and yields the committed pose if and only if the tracker's
status is TRACKING; in every other status (UNINITIALIZED, BOOTSTRAPPING,
LOST) GetPose returns false and reports no pose. -/
theorem getPose_true_iff_tracking (s : SlamState) :
    (((s.GetPose true).1 = true ∧ (s.GetPose true).2 = some s.pose) ↔
      s.status = TrackingStatus.TRACKING)
    ∧ (s.status ≠ TrackingStatus.TRACKING → s.GetPose true = (false, none)) := by
  constructor
  · constructor
    · rintro ⟨h1, _⟩
      by_cases h : s.status = TrackingStatus.TRACKING
      · exact h
      · simp [SlamState.GetPose, h] at h1
    · intro h
      simp [SlamState.GetPose, h]
  · intro h
    simp [SlamState.GetPose, h]

/-- Witness for C1: a SlamState in LOST yields no pose. -/
theorem getPose_true_iff_tracking_witness :
    ({ calib := sampleCalib, status := TrackingStatus.LOST,
       pose := samplePose } : SlamState).GetPose true = (false, none) :=
  (getPose_true_iff_tracking _).2 (by decide)

/-- C10: Every read-only query accessor of the public interface —
FeatureState.Get2dFeatures, FeatureState.GetStereoFeatures, Map.GetPoints and
SlamState.GetPose — returns false whenever its output pointer argument is
NULL (embedded as a false validity flag); being pure functions of the queried
object, they leave all state unchanged. -/
theorem accessors_false_on_null_out_pointer :
    (∀ (fs : FeatureState) (pl pr : Bool), pl = false ∨ pr = false →
      (fs.Get2dFeatures pl pr).1 = false ∧ (fs.Get2dFeatures pl pr).2 = none)
    ∧ (∀ fs : FeatureState,
      (fs.GetStereoFeatures false).1 = false ∧ (fs.GetStereoFeatures false).2 = none)
    ∧ (∀ m : Map, (m.GetPoints false).1 = false ∧ (m.GetPoints false).2 = none)
    ∧ (∀ s : SlamState, (s.GetPose false).1 = false ∧ (s.GetPose false).2 = none) := by
  refine ⟨?_, ?_, ?_, ?_⟩
  · intro fs pl pr h
    rcases h with h | h <;> subst h <;> simp [FeatureState.Get2dFeatures]
  · intro fs
    simp [FeatureState.GetStereoFeatures]
  · intro m
    simp [Map.GetPoints]
  · intro s
    simp [SlamState.GetPose]

/-- Witness for C10: querying 2d features through a NULL left-output pointer
fails. -/
theorem accessors_false_on_null_out_pointer_witness :
    (emptyFeatureState.Get2dFeatures false true).1 = false ∧
    (emptyFeatureState.Get2dFeatures false true).2 = none :=
  accessors_false_on_null_out_pointer.1 emptyFeatureState false true (Or.inl rfl)

/-- Helper for C9: whenever the online_slam loop reaches a failing RunSlam,
it breaks out of the while loop and SaveMap is still invoked. -/
theorem onlineRun_saves_after_slam_failure (saveOk : Bool) :
    ∀ (steps : List OnlineStep) (latch : Bool),
      onlineHitsSlamFail latch steps = true →
      (onlineRun saveOk latch steps).2 = true := by
  intro steps
  induction steps with
  | nil =>
    intro latch h
    simp [onlineHitsSlamFail] at h
  | cons hd tl ih =>
    intro latch h
    cases hd with
    | noData =>
      simp only [onlineHitsSlamFail] at h
      simpa [onlineRun] using ih latch h
    | sample st ok esc =>
      simp only [onlineHitsSlamFail, onlineRun] at h ⊢
      by_cases hl : (latch || st) = true
      · rw [if_pos hl] at h ⊢
        by_cases hok : ok = true
        · rw [if_pos hok] at h ⊢
          by_cases he : (st && esc) = true
          · rw [if_pos he] at h
            exact absurd h (by simp)
          · rw [if_neg he] at h ⊢
            exact ih _ h
        · rw [if_neg hok] at h ⊢
          simp [saveAndExit]
      · rw [if_neg hl] at h ⊢
        exact ih _ h

/-- The SlamState component of one SLAM iteration is exactly the Pose Tracker
update; the Mapping Orchestrator only touches the Map. -/
theorem slamStep_snd (d : Data) (m : Map) (s : SlamState) :
    (slamStep d m s).2 = trackerStep d s := by
  cases d with
  | imu t a w => rfl
  | stereo t f =>
    simp only [slamStep]
    split <;> rfl

/-- When the tracker update ends LOST, the Mapping Orchestrator leaves the
Map untouched. -/
theorem slamStep_lost_fst (d : Data) (m : Map) (s : SlamState)
    (h : (trackerStep d s).status = TrackingStatus.LOST) :
    (slamStep d m s).1 = m := by
  cases d with
  | imu t a w => rfl
  | stereo t f =>
    have hb : ((trackerStep (Data.stereo t f) s).status ==
        TrackingStatus.TRACKING) = false := by
      rw [h]
      rfl
    simp [slamStep, hb]

/-- A failed RunSlam call returns the Map pointer unchanged. -/
theorem runSlam_false_map_unchanged (data : Option Data) (map : Option Map)
    (state : Option SlamState) (h : (RunSlam data map state).1 = false) :
    (RunSlam data map state).2.1 = map := by
  cases data with
  | none => rfl
  | some d =>
    cases map with
    | none => rfl
    | some m =>
      cases state with
      | none => rfl
      | some s =>
        simp only [RunSlam, bne_eq_false_iff_eq] at h
        simp only [RunSlam, Option.some.injEq]
        rw [slamStep_snd] at h
        exact slamStep_lost_fst d m s h

/-- C2: RunSlam returns true if and only if all three shared pointers are
non-null and the updated tracker is still on track (not LOST); whenever it
returns false, the Map is returned exactly as it was — its last consistent
state — so a subsequent SaveMap on that Map (with a non-empty file name)
still succeeds. -/
theorem runSlam_contract :
    (∀ (data : Option Data) (map : Option Map) (state : Option SlamState),
      (RunSlam data map state).1 = true ↔
        ∃ d m s, data = some d ∧ map = some m ∧ state = some s ∧
          (slamStep d m s).2.status ≠ TrackingStatus.LOST)
    ∧ (∀ (data : Option Data) (map : Option Map) (state : Option SlamState),
        (RunSlam data map state).1 = false → (RunSlam data map state).2.1 = map)
    ∧ (∀ (data : Option Data) (m : Map) (state : Option SlamState) (f : String),
        (RunSlam data (some m) state).1 = false → f ≠ "" →
        SaveMap f (RunSlam data (some m) state).2.1 = true) := by
  refine ⟨?_, runSlam_false_map_unchanged, ?_⟩
  · intro data map state
    cases data with
    | none => simp [RunSlam]
    | some d =>
      cases map with
      | none => simp [RunSlam]
      | some m =>
        cases state with
        | none => simp [RunSlam]
        | some s =>
          simp only [RunSlam, bne_iff_ne, ne_eq, Option.some.injEq]
          constructor
          · intro h
            exact ⟨d, m, s, rfl, rfl, rfl, h⟩
          · rintro ⟨d2, m2, s2, hd, hm, hs, h⟩
            subst hd
            subst hm
            subst hs
            exact h
  · intro data m state f h hf
    rw [runSlam_false_map_unchanged data (some m) state h]
    simp [SaveMap, hf]

/-- Witness for C2: a stereo sample whose robust pose estimate fails drives
the tracker to LOST, RunSlam reports failure, and SaveMap on the returned Map
still succeeds. -/
theorem runSlam_contract_witness :
    SaveMap "map.json"
      (RunSlam (some sampleLostData) (some sampleMap)
        (some sampleTrackingState)).2.1 = true :=
  runSlam_contract.2.2 (some sampleLostData) sampleMap (some sampleTrackingState)
    "map.json" (by decide) (by decide)

/-- Deserialization inverts serialization on keyframes. -/
theorem decodeKeyframe_encodeKeyframe (kf : Keyframe) :
    decodeKeyframe (encodeKeyframe kf) = kf := rfl

/-- Deserialization inverts serialization on landmarks. -/
theorem decodeLandmark_encodeLandmark (l : Landmark) :
    decodeLandmark (encodeLandmark l) = l := rfl

/-- A consistent Map serializes to a document that passes the
referential-integrity validation of Load. -/
theorem docIntegrity_saveMapDoc (m : Map) (hm : MapConsistent m) :
    docIntegrity (SaveMapDoc m) = true := by
  simp only [docIntegrity, SaveMapDoc, List.all_eq_true, List.any_eq_true,
    List.mem_map, beq_iff_eq]
  rintro lr ⟨l, hl, rfl⟩ k hk
  obtain ⟨kf, hkf, hid⟩ := hm l hl k (by simpa [encodeLandmark] using hk)
  exact ⟨encodeKeyframe kf, ⟨kf, hkf, rfl⟩, by simpa [encodeKeyframe] using hid⟩

/-- C3: For every consistent Map saved with SaveMap and reloaded with LoadMap
under the same (valid) calibration, the reload succeeds and returns a Map
with the same landmark count, exactly equal landmark positions (serialization
over ℚ is exact), and identical keyframe poses. -/
theorem saveMap_loadMap_roundtrip (m : Map) (calib : Calib)
    (hm : MapConsistent m) (hc : calib.valid = true) :
    LoadMap (some (SaveMapDoc m)) calib = some m ∧
    ∀ m2, LoadMap (some (SaveMapDoc m)) calib = some m2 →
      m2.landmarks.length = m.landmarks.length ∧
      m2.landmarks.map Landmark.pos = m.landmarks.map Landmark.pos ∧
      m2.keyframes.map Keyframe.pose = m.keyframes.map Keyframe.pose := by
  have hint : docIntegrity (SaveMapDoc m) = true := docIntegrity_saveMapDoc m hm
  have hk : (decodeKeyframe ∘ encodeKeyframe) = id := funext decodeKeyframe_encodeKeyframe
  have hlm : (decodeLandmark ∘ encodeLandmark) = id := funext decodeLandmark_encodeLandmark
  have h1 : (m.keyframes.map encodeKeyframe).map decodeKeyframe = m.keyframes := by
    rw [List.map_map, hk, List.map_id]
  have h2 : (m.landmarks.map encodeLandmark).map decodeLandmark = m.landmarks := by
    rw [List.map_map, hlm, List.map_id]
  have hload : LoadMap (some (SaveMapDoc m)) calib = some m := by
    have hint2 : docIntegrity (SaveMapDoc m) = true := hint
    simp only [LoadMap, SaveMapDoc] at hint2 ⊢
    rw [hc, hint2]
    simp only [Bool.and_self]
    rw [if_pos trivial, h1, h2]
  refine ⟨hload, ?_⟩
  intro m2 hm2
  rw [hload, Option.some.injEq] at hm2
  subst hm2
  exact ⟨rfl, rfl, rfl⟩

/-- Witness for C3: the sample Map survives a Save→Load round trip. -/
theorem saveMap_loadMap_roundtrip_witness :
    LoadMap (some (SaveMapDoc sampleMap)) sampleCalib = some sampleMap :=
  (saveMap_loadMap_roundtrip sampleMap sampleCalib (by decide) rfl).1

instance (doc : MapDoc) : Decidable (hasDanglingObs doc) := by
  unfold hasDanglingObs
  infer_instance

/-- C4: LoadMap produces no Map at all on a corrupted or incomplete document:
an unparseable document (embedded as `none`) fails, a document in which some
landmark observation references a keyframe absent from the document fails,
and in general any document failing the calibration or integrity validation
fails — never yielding a partially usable Map. -/
theorem loadMap_rejects_corrupt_documents :
    (∀ calib : Calib, LoadMap none calib = none)
    ∧ (∀ (doc : MapDoc) (calib : Calib), hasDanglingObs doc →
        LoadMap (some doc) calib = none)
    ∧ (∀ (doc : MapDoc) (calib : Calib),
        (calib.valid && docIntegrity doc) = false →
        LoadMap (some doc) calib = none) := by
  refine ⟨fun calib => rfl, ?_, ?_⟩
  · intro doc calib hd
    obtain ⟨l, hl, k, hk, hnone⟩ := hd
    cases hbool : docIntegrity doc with
    | false => simp [LoadMap, hbool]
    | true =>
      exfalso
      simp only [docIntegrity, List.all_eq_true, List.any_eq_true,
        beq_iff_eq] at hbool
      obtain ⟨kf, hkf, heq⟩ := hbool l hl k hk
      exact hnone kf hkf heq
  · intro doc calib h
    simp [LoadMap, h]

/-- A document holding a landmark that observes keyframe 5 while the document
stores no keyframes at all. -/
def sampleDanglingDoc : MapDoc :=
  { keyframeRecs := [],
    landmarkRecs := [{ id := 1, px := 0, py := 0, pz := 0, obs := [5] }],
    nextId := 0 }

/-- Witness for C4: the dangling document fails to load. -/
theorem loadMap_rejects_corrupt_documents_witness :
    LoadMap (some sampleDanglingDoc) sampleCalib = none :=
  loadMap_rejects_corrupt_documents.2.1 sampleDanglingDoc sampleCalib (by decide)

/-- A concrete stereo sample with one bright pixel in each image. -/
def sampleStereoData : StereoData :=
  { timestamp := 0,
    img_l := some [{ px := 1, py := 0, v := 5 }],
    img_r := some [{ px := 0, py := 0, v := 5 }] }

/-- The sample calibration with an unreadable/corrupt calibration document. -/
def invalidCalib : Calib :=
  { sampleCalib with valid := false }

/-- C5: Stereo matching is deterministic — two RunFeature invocations given
bit-identical stereo data and the same calibration (with 3d on) produce equal
FeatureStates and in particular the same stereo correspondence set, whatever
ambient Map each invocation runs next to. -/
theorem stereo_matching_deterministic (sd1 sd2 : Option StereoData)
    (c1 c2 : Calib) (m1 m2 : Map) (hsd : sd1 = sd2) (hc : c1 = c2) :
    (RunFeature sd1 c1 true m1).1 = (RunFeature sd2 c2 true m2).1 ∧
    (RunFeature sd1 c1 true m1).1.stereo = (RunFeature sd2 c2 true m2).1.stereo := by
  subst hsd
  subst hc
  cases sd1 with
  | none => exact ⟨rfl, rfl⟩
  | some sd => exact ⟨rfl, rfl⟩

/-- Witness for C5: the sample stereo pair yields the same correspondences
next to the sample Map and next to an empty Map. -/
theorem stereo_matching_deterministic_witness :
    (RunFeature (some sampleStereoData) sampleCalib true sampleMap).1.stereo =
    (RunFeature (some sampleStereoData) sampleCalib true
      { keyframes := [], landmarks := [], nextId := 0 }).1.stereo :=
  (stereo_matching_deterministic (some sampleStereoData) (some sampleStereoData)
    sampleCalib sampleCalib sampleMap
    { keyframes := [], landmarks := [], nextId := 0 } rfl rfl).2

/-- C6: The feature pipeline fails by producing the empty FeatureState — as a
total function, not an exception — when the stereo pair is absent, when
either image is missing, when the calibration is invalid, or when fewer than
the minimum keypoint count are detected; and in every invocation its only
effect is the returned FeatureState: the ambient Map is returned unchanged. -/
theorem runFeature_failure_empty_and_pure :
    (∀ (calib : Calib) (w3 : Bool) (m : Map),
      RunFeature none calib w3 m = (emptyFeatureState, m))
    ∧ (∀ (sd : StereoData) (calib : Calib) (w3 : Bool) (m : Map),
        sd.img_l = none ∨ sd.img_r = none →
        RunFeature (some sd) calib w3 m = (emptyFeatureState, m))
    ∧ (∀ (sd : StereoData) (calib : Calib) (w3 : Bool) (m : Map),
        calib.valid = false →
        RunFeature (some sd) calib w3 m = (emptyFeatureState, m))
    ∧ (∀ (sd : StereoData) (calib : Calib) (w3 : Bool) (m : Map)
        (il ir : List Pixel), sd.img_l = some il → sd.img_r = some ir →
        ((detect calib il).length < calib.minKeypoints ∨
          (detect calib ir).length < calib.minKeypoints) →
        RunFeature (some sd) calib w3 m = (emptyFeatureState, m))
    ∧ (∀ (sd : Option StereoData) (calib : Calib) (w3 : Bool) (m : Map),
        (RunFeature sd calib w3 m).2 = m) := by
  refine ⟨fun _ _ _ => rfl, ?_, ?_, ?_, ?_⟩
  · intro sd calib w3 m h
    obtain ⟨ts, il, ir⟩ := sd
    cases il with
    | none => cases ir <;> rfl
    | some a =>
      cases ir with
      | none => rfl
      | some b =>
        exfalso
        rcases h with h | h <;> simp at h
  · intro sd calib w3 m h
    obtain ⟨ts, il, ir⟩ := sd
    cases il with
    | none => rfl
    | some a =>
      cases ir with
      | none => rfl
      | some b => simp [RunFeature, ExtractAndMatch, h]
  · intro sd calib w3 m il ir hl hr hlen
    obtain ⟨ts, il2, ir2⟩ := sd
    simp only at hl hr
    subst hl
    subst hr
    by_cases hv : calib.valid = true
    · simp [RunFeature, ExtractAndMatch, hv, hlen]
    · simp [RunFeature, ExtractAndMatch, hv]
  · intro sd calib w3 m
    cases sd <;> rfl

/-- Witness for C6: an invalid calibration makes RunFeature produce the empty
state and leave the Map alone. -/
theorem runFeature_failure_empty_and_pure_witness :
    RunFeature (some sampleStereoData) invalidCalib true sampleMap =
      (emptyFeatureState, sampleMap) :=
  runFeature_failure_empty_and_pure.2.2.1 sampleStereoData invalidCalib true
    sampleMap rfl

/-- A correspondence produced by triangulation has positive disparity and a
depth within the calibrated near/far range. -/
theorem triangulate_some_valid (calib : Calib) (kl kr : Keypoint)
    (f : StereoFeature) (h : triangulate calib kl kr = some f) :
    0 < disparity f ∧ calib.near ≤ depth f ∧ depth f ≤ calib.far := by
  simp only [triangulate] at h
  by_cases h1 : 0 < kl.x - kr.x
  · rw [if_pos h1] at h
    by_cases h2 : calib.near ≤ calib.fx * calib.baseline / (kl.x - kr.x) ∧
        calib.fx * calib.baseline / (kl.x - kr.x) ≤ calib.far
    · rw [if_pos h2] at h
      obtain rfl := Option.some.inj h
      exact ⟨h1, h2.1, h2.2⟩
    · rw [if_neg h2] at h
      exact absurd h (by simp)
  · rw [if_neg h1] at h
    exact absurd h (by simp)

/-- Every correspondence stored in a FeatureState produced by RunFeature
satisfies the disparity/depth invariant. -/
theorem runFeature_stereo_valid (sd : Option StereoData) (calib : Calib)
    (w3 : Bool) (m : Map) (f : StereoFeature)
    (hf : f ∈ (RunFeature sd calib w3 m).1.stereo) :
    0 < disparity f ∧ calib.near ≤ depth f ∧ depth f ≤ calib.far := by
  cases sd with
  | none => simp [RunFeature, emptyFeatureState] at hf
  | some sd =>
    obtain ⟨ts, il, ir⟩ := sd
    cases il with
    | none => simp [RunFeature, ExtractAndMatch, emptyFeatureState] at hf
    | some a =>
      cases ir with
      | none => simp [RunFeature, ExtractAndMatch, emptyFeatureState] at hf
      | some b =>
        simp only [RunFeature, ExtractAndMatch] at hf
        by_cases hv : calib.valid = true
        · rw [if_pos hv] at hf
          by_cases hn : (detect calib a).length < calib.minKeypoints ∨
              (detect calib b).length < calib.minKeypoints
          · rw [if_pos hn] at hf
            simp [emptyFeatureState] at hf
          · rw [if_neg hn] at hf
            by_cases hw : w3 = true
            · rw [if_pos hw] at hf
              simp only [List.mem_filterMap] at hf
              obtain ⟨pr, _, htri⟩ := hf
              exact triangulate_some_valid calib pr.1 pr.2 f htri
            · rw [if_neg hw] at hf
              simp at hf
        · rw [if_neg hv] at hf
          simp [emptyFeatureState] at hf

/-- The Pose Tracker update never changes the calibration stored in the
SlamState. -/
theorem trackerStep_calib (d : Data) (s : SlamState) :
    (trackerStep d s).calib = s.calib := by
  obtain ⟨cal, st, p⟩ := s
  cases d with
  | imu t a w => rfl
  | stereo t fr =>
    obtain ⟨mp, pok, feats⟩ := fr
    cases st <;> cases pok <;> cases mp <;> rfl

/-- One SLAM iteration preserves the correspondence-validity invariant over
the Map's keyframes: candidates violating it are filtered out before any
keyframe stores them. -/
theorem slamStep_preserves_feat_invariant (d : Data) (m : Map) (s : SlamState)
    (hm : MapFeatInvariant s.calib m) :
    MapFeatInvariant s.calib (slamStep d m s).1 := by
  cases d with
  | imu t a w => exact hm
  | stereo t fr =>
    simp only [slamStep]
    split
    · intro kf hkf f hf
      have hcal : (trackerStep (Data.stereo t fr) s).calib = s.calib :=
        trackerStep_calib _ _
      simp only [insertKeyframe, List.mem_cons] at hkf
      rcases hkf with rfl | hkf2
      · have hmem := List.mem_filter.mp hf
        rw [hcal] at hmem
        exact hmem.2
      · exact hm kf hkf2 f hf
    · exact hm

/-- C7: Every StereoFeature stored in a FeatureState produced by the feature
pipeline has disparity > 0 and triangulated depth within the calibrated
near/far range, and every SLAM iteration preserves that invariant over the
correspondences stored in the Map's keyframes — violating candidates are
discarded, never stored. -/
theorem stereo_correspondence_invariant :
    (∀ (sd : Option StereoData) (calib : Calib) (w3 : Bool) (m : Map)
        (f : StereoFeature), f ∈ (RunFeature sd calib w3 m).1.stereo →
        0 < disparity f ∧ calib.near ≤ depth f ∧ depth f ≤ calib.far)
    ∧ (∀ (d : Data) (m : Map) (s : SlamState), MapFeatInvariant s.calib m →
        MapFeatInvariant s.calib (slamStep d m s).1) :=
  ⟨runFeature_stereo_valid, slamStep_preserves_feat_invariant⟩

instance (calib : Calib) (m : Map) : Decidable (MapFeatInvariant calib m) := by
  unfold MapFeatInvariant
  infer_instance

/-- Witness for C7: a SLAM iteration on the sample inputs keeps the stored
correspondences valid. -/
theorem stereo_correspondence_invariant_witness :
    MapFeatInvariant sampleTrackingState.calib
      (slamStep sampleStaticData sampleMap sampleTrackingState).1 :=
  stereo_correspondence_invariant.2 sampleStaticData sampleMap
    sampleTrackingState (by decide)

/-- Squared distance of a vector to itself vanishes. -/
theorem Vec3.distSq_self (a : Vec3) : Vec3.distSq a a = 0 := by
  simp [Vec3.distSq]

/-- With nonnegative thresholds, the keyframe-insertion policy declines at a
pose equal to the most recent keyframe's pose. -/
theorem needKeyframe_static (calib : Calib) (p : Pose) (m : Map)
    (kf : Keyframe) (rest : List Keyframe)
    (hkf : m.keyframes = kf :: rest) (hkfp : kf.pose = p)
    (ht : 0 ≤ calib.kfTransThreshSq) (hr : 0 ≤ calib.kfRotThreshSq)
    (ho : 0 ≤ calib.overlapRadiusSq) :
    needKeyframe calib p m = false := by
  have h1 : decide (calib.kfTransThreshSq < Vec3.distSq p.t kf.pose.t) = false := by
    rw [hkfp, Vec3.distSq_self]
    exact decide_eq_false (not_lt.mpr ht)
  have h2 : decide (calib.kfRotThreshSq < Vec3.distSq p.r kf.pose.r) = false := by
    rw [hkfp, Vec3.distSq_self]
    exact decide_eq_false (not_lt.mpr hr)
  have h3 : lowOverlap calib p m = false := by
    rw [lowOverlap, hkf]
    simp only [List.all_cons]
    rw [hkfp, Vec3.distSq_self]
    simp [decide_eq_false (not_lt.mpr ho)]
  simp only [needKeyframe, hkf, List.head?_cons]
  rw [h1, h2, h3]
  rfl

/-- A stereo sample whose robust estimate returns the committed pose again
leaves a TRACKING state tracking at that pose. -/
theorem trackerStep_tracking_static (t : Nat) (fr : StereoFrame)
    (s : SlamState) (p : Pose) (hst : s.status = TrackingStatus.TRACKING)
    (hmp : fr.measuredPose = some p) :
    trackerStep (Data.stereo t fr) s = { s with pose := p } := by
  simp only [trackerStep, hst, hmp]

/-- Helper for C8: from a TRACKING state whose map already holds a keyframe
at the static pose, a static sample sequence adds no keyframes. -/
theorem runSlamSeq_static (p : Pose) (samples : List Data) :
    ∀ (m : Map) (s : SlamState) (kf : Keyframe) (rest : List Keyframe),
      s.status = TrackingStatus.TRACKING →
      m.keyframes = kf :: rest → kf.pose = p →
      0 ≤ s.calib.kfTransThreshSq → 0 ≤ s.calib.kfRotThreshSq →
      0 ≤ s.calib.overlapRadiusSq →
      (∀ d ∈ samples, staticSample p d) →
      (runSlamSeq samples m s).1.keyframes = m.keyframes := by
  induction samples with
  | nil =>
    intro m s kf rest _ _ _ _ _ _ _
    rfl
  | cons d ds ih =>
    intro m s kf rest hst hkf hkfp ht hr ho hstatic
    have hds : ∀ x ∈ ds, staticSample p x :=
      fun x hx => hstatic x (List.mem_cons_of_mem d hx)
    cases d with
    | imu t a w =>
      simpa only [runSlamSeq, slamStep, trackerStep] using
        ih m s kf rest hst hkf hkfp ht hr ho hds
    | stereo t fr =>
      have hmp : fr.measuredPose = some p :=
        hstatic (Data.stereo t fr) (List.mem_cons_self _ _)
      have hts : trackerStep (Data.stereo t fr) s = { s with pose := p } :=
        trackerStep_tracking_static t fr s p hst hmp
      have hneed : needKeyframe s.calib p m = false :=
        needKeyframe_static s.calib p m kf rest hkf hkfp ht hr ho
      have hstep : slamStep (Data.stereo t fr) m s = (m, { s with pose := p }) := by
        simp only [slamStep, hts]
        rw [if_neg]
        simp [hneed]
      simp only [runSlamSeq, hstep]
      exact ih m { s with pose := p } kf rest hst hkf hkfp ht hr ho hds

/-- C8: Keyframe insertion is idempotent under no motion — for every sequence
of SLAM iterations over a static rig (each stereo sample's robust estimate
returns the same pose that the most recent keyframe already holds), the Map's
keyframe list is unchanged: after the first keyframe, no sample of the static
sequence adds another. -/
theorem static_rig_no_new_keyframes (p : Pose) (samples : List Data) (m : Map)
    (s : SlamState) (kf : Keyframe) (rest : List Keyframe)
    (hst : s.status = TrackingStatus.TRACKING) (_hp : s.pose = p)
    (hkf : m.keyframes = kf :: rest) (hkfp : kf.pose = p)
    (ht : 0 ≤ s.calib.kfTransThreshSq) (hr : 0 ≤ s.calib.kfRotThreshSq)
    (ho : 0 ≤ s.calib.overlapRadiusSq)
    (hstatic : ∀ d ∈ samples, staticSample p d) :
    (runSlamSeq samples m s).1.keyframes = m.keyframes ∧
    (runSlamSeq samples m s).1.keyframes.length = m.keyframes.length := by
  have h := runSlamSeq_static p samples m s kf rest hst hkf hkfp ht hr ho hstatic
  exact ⟨h, by rw [h]⟩

/-- Witness for C8: two static samples on the sample map add no keyframes. -/
theorem static_rig_no_new_keyframes_witness :
    (runSlamSeq [sampleStaticData, sampleStaticData] sampleMap
      sampleTrackingState).1.keyframes = sampleMap.keyframes :=
  (static_rig_no_new_keyframes samplePose [sampleStaticData, sampleStaticData]
    sampleMap sampleTrackingState { id := 0, pose := samplePose, feat := [] } []
    rfl rfl rfl rfl (by decide) (by decide) (by decide)
    (by
      intro d hd
      simp only [List.mem_cons, List.not_mem_nil, or_false] at hd
      rcases hd with rfl | rfl <;> rfl)).1

/-- C9: In the offline SLAM driver, SaveMap is invoked exactly when the loop
never reaches a failing RunSlam (it ends by the sequence being consumed or by
the user pressing ESC); whenever a RunSlam call returns false the program
exits with code -1 and SaveMap is never reached, so no map file is written —
unlike the online SLAM driver, which still invokes SaveMap after RunSlam
fails. -/
theorem offline_driver_save_semantics (saveOk : Bool) :
    (∀ steps : List OfflineStep,
      (offlineRun saveOk steps).2 = !(offlineHitsSlamFail steps))
    ∧ (∀ steps : List OfflineStep, offlineHitsSlamFail steps = true →
        offlineRun saveOk steps = (-1, false))
    ∧ (∀ steps : List OnlineStep, onlineHitsSlamFail false steps = true →
        (onlineRun saveOk false steps).2 = true) := by
  refine ⟨?_, ?_, fun steps h => onlineRun_saves_after_slam_failure saveOk steps false h⟩
  · intro steps
    induction steps with
    | nil => simp [offlineRun, offlineHitsSlamFail, saveAndExit]
    | cons hd tl ih =>
      cases hd with
      | loadFail => simp [offlineRun, offlineHitsSlamFail, saveAndExit]
      | frame ok st esc =>
        cases ok with
        | false => simp [offlineRun, offlineHitsSlamFail]
        | true =>
          by_cases he : (st && esc) = true
          · simp [offlineRun, offlineHitsSlamFail, he, saveAndExit]
          · simpa [offlineRun, offlineHitsSlamFail, he] using ih
  · intro steps
    induction steps with
    | nil => simp [offlineHitsSlamFail]
    | cons hd tl ih =>
      intro h
      cases hd with
      | loadFail => simp [offlineHitsSlamFail] at h
      | frame ok st esc =>
        cases ok with
        | false => simp [offlineRun]
        | true =>
          simp only [offlineHitsSlamFail, if_true] at h
          by_cases he : (st && esc) = true
          · rw [if_pos he] at h
            exact absurd h (by simp)
          · rw [if_neg he] at h
            simpa [offlineRun, he] using ih h

/-- Witness for C9: a sequence whose second RunSlam call fails makes the
offline driver exit -1 without saving, while the online driver still saves. -/
theorem offline_driver_save_semantics_witness :
    offlineRun true
      [OfflineStep.frame true true false, OfflineStep.frame false true false] =
      (-1, false) ∧
    (onlineRun true false
      [OnlineStep.sample true true false, OnlineStep.sample true false false]).2 = true :=
  ⟨(offline_driver_save_semantics true).2.1 _ (by decide),
   (offline_driver_save_semantics true).2.2 _ (by decide)⟩

end PIRVS
